import Mathlib

/-! The eehMenu provider and service (src/eeh-menu.service.js).

A shallow embedding of `NavigationProvider` and `NavigationService`.
Objects are passed explicitly: a method takes the receiver and returns the
receiver after the call together with what the call returned.
-/

set_option autoImplicit false
set_option linter.unusedVariables false

/-! ## JavaScript values and plain objects -/

/-- A JavaScript value, as far as the service looks at it. -/
inductive Value where
  | undefined
  | null
  | bool (b : Bool)
  | num (n : Int)
  | str (s : String)
  /-- an object handed in by the caller that is not a function -/
  | obj (ref : Nat)
  /-- a function handed in by the caller -/
  | fn (ref : Nat)
  /-- the function created at lines 401-407 of the source -/
  | defaultIsVisible
  deriving DecidableEq, Repr

/-- Test `angular.isUndefined(value)`. -/
def Value.isUndefined (v : Value) : Bool :=
  match v with
  | .undefined => true
  | _ => false

/-- Test `angular.isDefined(value)`. -/
def Value.isDefined (v : Value) : Bool := !v.isUndefined

/-- The truth value JavaScript gives to a value in a condition or under `||`. -/
def Value.truthy (v : Value) : Bool :=
  match v with
  | .undefined => false
  | .null => false
  | .bool b => b
  | .num n => n != 0
  | .str s => s != ""
  | .obj _ => true
  | .fn _ => true
  | .defaultIsVisible => true

/-- The operator `a || b`: the left operand when it is truthy, the right one otherwise. -/
def jsOr (a b : Value) : Value := if a.truthy then a else b

/-- Own property lookup in a plain object whose properties are kept in creation order. -/
def getProp {α : Type} : List (String × α) → String → Option α
  | [], _ => none
  | (k, v) :: rest, key => if k = key then some v else getProp rest key

/-- The assignment `object[key] = v`: an existing property keeps its place,
a new one is created after all the others. -/
def setProp {α : Type} : List (String × α) → String → α → List (String × α)
  | [], key, v => [(key, v)]
  | (k, w) :: rest, key, v =>
    if k = key then (k, v) :: rest else (k, w) :: setProp rest key v

/-- Decimal value of a string of digits, most significant first. -/
def digitsValue : List Char → Nat → Option Nat
  | [], acc => some acc
  | c :: cs, acc =>
    if 48 ≤ c.toNat ∧ c.toNat ≤ 57 then digitsValue cs (acc * 10 + (c.toNat - 48)) else none

/-- The array index a property key denotes, if any: the key is the canonical
decimal form (no sign, no leading zero) of an integer below 2^32 - 1. -/
def arrayIndex (key : String) : Option Nat :=
  match key.data with
  | [] => none
  | [c] => digitsValue [c] 0
  | c :: cs =>
    if c = '0' then none
    else (digitsValue (c :: cs) 0).bind (fun n => if n < 4294967295 then some n else none)

/-- Whether a property key is an array index. -/
def isArrayIndex (key : String) : Bool := (arrayIndex key).isSome

/-- Numeric rank used to order array-index keys. -/
def indexRank {α : Type} (entry : String × α) : Nat := (arrayIndex entry.1).getD 0

/-- The order in which `for (key in object)`, and with it `angular.forEach`,
visits the own properties of a plain object (ECMAScript, OrdinaryOwnPropertyKeys):
array-index keys first, by ascending number, then every other string key in
the order the properties were created. -/
def enumerate {α : Type} (o : List (String × α)) : List (String × α) :=
  List.insertionSort (fun a b => indexRank a ≤ indexRank b) (o.filter (fun e => isArrayIndex e.1))
    ++ o.filter (fun e => !isArrayIndex e.1)

/-- A menu item config: a plain object, read field by field. -/
abbrev MenuItemConfig := List (String × Value)

/-- The read `config.field`: the property value, `undefined` when there is none. -/
def field (config : MenuItemConfig) (name : String) : Value :=
  (getProp config name).getD Value.undefined

/-! ## NavigationProvider (lines 337-367) -/

/-- What a method call returned. -/
inductive Ret where
  /-- the object the method was called on -/
  | this
  /-- a plain value -/
  | value (v : Value)
  /-- the result of the underlying menu's lookup -/
  | item (definition : Option MenuItemConfig)
  deriving DecidableEq, Repr

/-- The provider object. The values of `_menuItems` are the second arguments
of `menuItem`; `none` stands for `undefined`. -/
structure NavigationProvider where
  _iconBaseClass : Value
  _defaultIconClassPrefix : Value
  _menuItems : List (String × Option MenuItemConfig)
  deriving DecidableEq, Repr

/-- The constructor `NavigationProvider()` (lines 337-341). -/
def NavigationProvider.new : NavigationProvider :=
  { _iconBaseClass := Value.str "glyphicon"
    _defaultIconClassPrefix := Value.str "glyphicon"
    _menuItems := [] }

/-- Method `NavigationProvider.prototype.iconBaseClass` (lines 343-349). -/
def NavigationProvider.iconBaseClass (p : NavigationProvider) (value : Value) :
    NavigationProvider × Ret :=
  if value.isUndefined then (p, Ret.value p._iconBaseClass)
  else ({ p with _iconBaseClass := value }, Ret.this)

/-- Method `NavigationProvider.prototype.defaultIconClassPrefix` (lines 351-357). -/
def NavigationProvider.defaultIconClassPrefix (p : NavigationProvider) (value : Value) :
    NavigationProvider × Ret :=
  if value.isUndefined then (p, Ret.value p._defaultIconClassPrefix)
  else ({ p with _defaultIconClassPrefix := value }, Ret.this)

/-- Method `NavigationProvider.prototype.menuItem` (lines 359-362). -/
def NavigationProvider.menuItem (p : NavigationProvider) (name : String)
    (config : Option MenuItemConfig) : NavigationProvider × Ret :=
  ({ p with _menuItems := setProp p._menuItems name config }, Ret.this)

/-! ## The menu item an `isVisible` function runs on (lines 400-408) -/

/-- The object bound to `this` when an `isVisible` function is invoked: its
fields, and what `this.hasVisibleChildren()` returns at that moment. -/
structure MenuItem where
  definition : MenuItemConfig
  hasVisibleChildren : Value
  deriving DecidableEq, Repr

/-- The body of the function created at lines 401-407, run with `this` bound
to the given item. -/
def defaultIsVisible (this : MenuItem) : Value :=
  jsOr this.hasVisibleChildren
    (jsOr
      (jsOr
        (jsOr (Value.bool (field this.definition "state").isDefined)
          (Value.bool (field this.definition "href").isDefined))
        (Value.bool (field this.definition "click").isDefined))
      (field this.definition "isDivider"))

/-- The call `item.isVisible()` for an `isVisible` property holding `f`:
`none` when `f` is not a function. The behaviour of functions handed in by the
caller is given by `callbacks`. -/
def callIsVisible (callbacks : Nat → MenuItem → Value) (f : Value) (this : MenuItem) :
    Option Value :=
  match f with
  | .defaultIsVisible => some (defaultIsVisible this)
  | .fn ref => some (callbacks ref this)
  | _ => none

/-! ## The underlying menu (the injected `menuJsMenu`) -/

/-- A failed operation: a call on something that is not a function, or the
MalformedName failure of the spec (section 7). -/
inductive JSError where
  | typeError
  | malformedName
  deriving DecidableEq, Repr

/-- Modelled from the spec: PathParser (section 4.2), splitting on the dot.
The injected menu object is not part of the source. -/
def splitDots : List Char → List (List Char)
  | [] => [[]]
  | c :: cs =>
    if c = '.' then [] :: splitDots cs
    else
      match splitDots cs with
      | [] => [[c]]
      | s :: ss => (c :: s) :: ss

/-- Modelled from the spec: PathParser `segments(name)` (section 4.2, section 7):
the non-empty segments of a dotted name; it fails on the empty string and on a
name with an empty segment. The injected menu object is not part of the source. -/
def segments (name : String) : Option (List String) :=
  let parts := splitDots name.data
  if parts.all (fun part => !part.isEmpty) then some (parts.map String.mk) else none

/-- Modelled from the spec: ItemRegistry (section 4.1), the flat mapping from
dotted name to definition, kept in insertion order as section 4.5 requires.
The injected menu object is not part of the source; the source reads its
`_menuItems` at line 376. -/
structure Menu where
  _menuItems : List (String × MenuItemConfig)
  deriving DecidableEq, Repr

/-- Modelled from the spec: MenuFacade `menuItem(name)` and `menuItem(name, config)`
(sections 4.1, 4.6 and 7) of the injected menu object, which is not part of the
source. Without a config it returns the current definition or not-found; with
one it inserts or replaces, and a malformed name fails with the registry untouched. -/
def Menu.menuItem (m : Menu) (name : String) (config : Option MenuItemConfig) :
    Except JSError (Menu × Ret) :=
  match config with
  | none => Except.ok (m, Ret.item (getProp m._menuItems name))
  | some definition =>
    match segments name with
    | none => Except.error JSError.malformedName
    | some _ => Except.ok ({ m with _menuItems := setProp m._menuItems name definition }, Ret.this)

mutual
/-- Modelled from the spec: TreeBuilder (section 4.3), the names below a root
arranged by path segment; a node whose name was never registered has no
definition. The injected menu object is not part of the source. -/
inductive Trie where
  | node (definition : Option MenuItemConfig) (children : TrieList)
/-- Modelled from the spec: the children of a TreeBuilder node (section 4.3),
each under its own path segment, in order of first registration. -/
inductive TrieList where
  | nil
  | cons (segment : String) (child : Trie) (rest : TrieList)
end

/-- Modelled from the spec: TreeBuilder (section 4.3, section 8), the
unregistered intermediate ancestors leading down to a newly met name. -/
def Trie.chain : List String → MenuItemConfig → Trie
  | [], d => Trie.node (some d) TrieList.nil
  | s :: rest, d => Trie.node none (TrieList.cons s (Trie.chain rest d) TrieList.nil)

mutual
/-- Modelled from the spec: TreeBuilder (section 4.3), placing one registered
definition at its path below the root. -/
def Trie.insert : Trie → List String → MenuItemConfig → Trie
  | Trie.node _ cs, [], d => Trie.node (some d) cs
  | Trie.node old cs, s :: rest, d => Trie.node old (TrieList.insert cs s rest d)
/-- Modelled from the spec: TreeBuilder (section 4.3), placing a definition
under the child with segment `s`, creating that child after the others when
it is new. -/
def TrieList.insert : TrieList → String → List String → MenuItemConfig → TrieList
  | TrieList.nil, s, rest, d => TrieList.cons s (Trie.chain rest d) TrieList.nil
  | TrieList.cons s0 c cs, s, rest, d =>
    if s0 = s then TrieList.cons s0 (Trie.insert c rest d) cs
    else TrieList.cons s0 c (TrieList.insert cs s rest d)
end

/-- Modelled from the spec: the `TreeNode` of the query surface (section 6):
definition (or none for a placeholder), ordered children, visible flag. -/
inductive TreeNode where
  | mk (definition : Option MenuItemConfig) (children : List TreeNode) (visible : Bool)
  deriving Repr

/-- Modelled from the spec: the `definition` of a `TreeNode` (section 6). -/
def TreeNode.definition : TreeNode → Option MenuItemConfig
  | TreeNode.mk d _ _ => d

/-- Modelled from the spec: the `children` of a `TreeNode` (section 6). -/
def TreeNode.children : TreeNode → List TreeNode
  | TreeNode.mk _ cs _ => cs

/-- Modelled from the spec: the `visible` flag of a `TreeNode` (section 6). -/
def TreeNode.visible : TreeNode → Bool
  | TreeNode.mk _ _ v => v

/-- Modelled from the spec: the ordering key (section 3, section 4.5): the
`weight` of the definition, 0 when it is unset or there is no definition. -/
def weightOf (definition : Option MenuItemConfig) : Int :=
  match definition with
  | none => 0
  | some d =>
    match field d "weight" with
    | Value.num n => n
    | _ => 0

/-- Modelled from the spec: the ordering key of a tree node (section 4.5). -/
def TreeNode.weight (t : TreeNode) : Int := weightOf t.definition

/-- Modelled from the spec: OrderingPolicy `order` (section 4.5), a stable
sort ascending by weight. -/
def orderSiblings (nodes : List TreeNode) : List TreeNode :=
  List.insertionSort (fun a b => a.weight ≤ b.weight) nodes

/-- Modelled from the spec: VisibilityEvaluator `isVisible` (section 4.4): a
boolean is returned as it is, a predicate is invoked on the node, and an unset
`isVisible` means the default rule. Any other value counts by its truthiness. -/
def nodeIsVisible (callbacks : Nat → MenuItem → Value) (definition : MenuItemConfig)
    (hasVisibleChildren : Bool) : Bool :=
  let this : MenuItem :=
    { definition := definition, hasVisibleChildren := Value.bool hasVisibleChildren }
  match field definition "isVisible" with
  | Value.bool b => b
  | Value.fn ref => (callbacks ref this).truthy
  | Value.defaultIsVisible => (defaultIsVisible this).truthy
  | Value.undefined =>
    hasVisibleChildren || (field definition "state").isDefined
      || (field definition "href").isDefined || (field definition "click").isDefined
      || (field definition "isDivider").truthy
  | other => other.truthy

mutual
/-- Modelled from the spec: MenuFacade `menuItemTree` (section 4.6) on one
node: children ordered by OrderingPolicy, invisible children pruned, and the
node's own visibility computed after its children's. -/
def Trie.render (callbacks : Nat → MenuItem → Value) : Trie → TreeNode
  | Trie.node d cs =>
    let ordered := orderSiblings (TrieList.render callbacks cs)
    TreeNode.mk d (ordered.filter TreeNode.visible)
      (nodeIsVisible callbacks (d.getD []) (ordered.any TreeNode.visible))
/-- Modelled from the spec: the children of a node, each rendered in turn. -/
def TrieList.render (callbacks : Nat → MenuItem → Value) : TrieList → List TreeNode
  | TrieList.nil => []
  | TrieList.cons _ c cs => Trie.render callbacks c :: TrieList.render callbacks cs
end

/-- The service object. The constructor assigns the own properties `_menu`,
`_iconBaseClass` and `defaultIconClassPrefix` (lines 370-372); no line of the
source assigns `_defaultIconClassPrefix`, which therefore stays `undefined`. -/
structure NavigationService where
  _menu : Menu
  _iconBaseClass : Value
  defaultIconClassPrefix : Value
  _defaultIconClassPrefix : Value
  deriving DecidableEq, Repr

/-- The config after lines 400-408: the default function is stored in
`isVisible` when that field is undefined. -/
def NavigationService.withIsVisible (config : MenuItemConfig) : MenuItemConfig :=
  if (field config "isVisible").isUndefined then setProp config "isVisible" Value.defaultIsVisible
  else config

/-- Method `NavigationService.prototype.menuItem` (lines 396-411). -/
def NavigationService.menuItem (s : NavigationService) (name : String)
    (config : Option MenuItemConfig) : Except JSError (NavigationService × Ret) :=
  match config with
  | none =>
    match s._menu.menuItem name none with
    | Except.error e => Except.error e
    | Except.ok (menu, found) => Except.ok ({ s with _menu := menu }, found)
  | some config =>
    match s._menu.menuItem name (some (NavigationService.withIsVisible config)) with
    | Except.error e => Except.error e
    | Except.ok (menu, _) => Except.ok ({ s with _menu := menu }, Ret.this)

/-- The loop `angular.forEach(menuItems, ...)` of lines 379-381 over the
properties still to visit; a call that fails ends the loop and the constructor. -/
def NavigationService.forEachMenuItem :
    List (String × Option MenuItemConfig) → NavigationService → Except JSError NavigationService
  | [], self => Except.ok self
  | (menuItemName, menuItem) :: rest, self =>
    match self.menuItem menuItemName menuItem with
    | Except.error e => Except.error e
    | Except.ok (self1, _) => NavigationService.forEachMenuItem rest self1

/-- The constructor `NavigationService(menu, menuItems, iconBaseClass,
defaultIconClassPrefix)` (lines 369-382); `angular.forEach` visits the own
properties of `menuItems` in the order given by `enumerate`. -/
def NavigationService.new (menu : Menu) (menuItems : List (String × Option MenuItemConfig))
    (iconBaseClass defaultIconClassPrefix : Value) : Except JSError NavigationService :=
  NavigationService.forEachMenuItem (enumerate menuItems)
    { _menu := menu
      _iconBaseClass := iconBaseClass
      defaultIconClassPrefix := defaultIconClassPrefix
      _defaultIconClassPrefix := Value.undefined }

/-- The function stored in `this.menuItems` at lines 375-377. -/
def NavigationService.menuItems (s : NavigationService) : List (String × MenuItemConfig) :=
  s._menu._menuItems

/-- Method `NavigationProvider.prototype.$get` (lines 365-367). -/
def NavigationProvider.get (p : NavigationProvider) (menuJsMenu : Menu) :
    Except JSError NavigationService :=
  NavigationService.new menuJsMenu p._menuItems p._iconBaseClass p._defaultIconClassPrefix

/-- The function `NavigationService.prototype.iconBaseClass` (lines 384-386). -/
def NavigationService.iconBaseClass (s : NavigationService) : Value := s._iconBaseClass

/-- The function `NavigationService.prototype.defaultIconClassPrefix` (lines
388-390), which reads `this._defaultIconClassPrefix`. -/
def NavigationService.prototypeDefaultIconClassPrefix (s : NavigationService) : Value :=
  s._defaultIconClassPrefix

/-- The outcome of a call expression. -/
inductive CallResult where
  /-- the call returned a value -/
  | returns (v : Value)
  /-- the callee is not a function -/
  | throwsTypeError
  /-- control passes to a function handed in by the caller -/
  | runs (ref : Nat)
  deriving DecidableEq, Repr

/-- The call expression `service.defaultIconClassPrefix()`. Property lookup
finds the own property assigned at line 372 before it reaches the prototype, so
that value is what gets called. (The function of lines 401-407, called on the
service, itself fails on the missing `hasVisibleChildren`.) -/
def NavigationService.callDefaultIconClassPrefix (s : NavigationService) : CallResult :=
  match s.defaultIconClassPrefix with
  | Value.fn ref => CallResult.runs ref
  | _ => CallResult.throwsTypeError

/-- The statements `p.menuItem(n1, c1); p.menuItem(n2, c2); ...` made one
after another on the provider. -/
def NavigationProvider.registerEach (p : NavigationProvider) :
    List (String × Option MenuItemConfig) → NavigationProvider
  | [] => p
  | (name, config) :: rest => NavigationProvider.registerEach (p.menuItem name config).1 rest

/-- The chained expression `r.menuItem(n1, c1).menuItem(n2, c2)...` where `r`
is what the expression so far evaluated to: each call is made on the value the
previous call returned, and only the provider itself has the method. -/
def NavigationProvider.chain (p : NavigationProvider) (receiver : Ret) :
    List (String × Option MenuItemConfig) → Except JSError (NavigationProvider × Ret)
  | [] => Except.ok (p, receiver)
  | (name, config) :: rest =>
    match receiver with
    | Ret.this => NavigationProvider.chain (p.menuItem name config).1 (p.menuItem name config).2 rest
    | _ => Except.error JSError.typeError

/-- The statements `s.menuItem(n1, c1); s.menuItem(n2, c2); ...` made one
after another on the service, each with a defined config. -/
def NavigationService.registerEach (s : NavigationService) :
    List (String × MenuItemConfig) → Except JSError NavigationService
  | [] => Except.ok s
  | (name, config) :: rest =>
    match s.menuItem name (some config) with
    | Except.error e => Except.error e
    | Except.ok (s1, _) => NavigationService.registerEach s1 rest

/-- The chained expression `r.menuItem(n1, c1).menuItem(n2, c2)...` on the
service, each call made on the value the previous call returned. -/
def NavigationService.chain (s : NavigationService) (receiver : Ret) :
    List (String × MenuItemConfig) → Except JSError (NavigationService × Ret)
  | [] => Except.ok (s, receiver)
  | (name, config) :: rest =>
    match receiver with
    | Ret.this =>
      match s.menuItem name (some config) with
      | Except.error e => Except.error e
      | Except.ok (s1, returned) => NavigationService.chain s1 returned rest
    | _ => Except.error JSError.typeError

/-! ## Nodes of a tree, and the calls the constructor issues -/

/-- The relation `IsNodeOf n t`: `n` is the tree `t` itself or a node anywhere below it. -/
inductive TreeNode.IsNodeOf : TreeNode → TreeNode → Prop where
  | here (t : TreeNode) : TreeNode.IsNodeOf t t
  | under (n c t : TreeNode) (hc : c ∈ t.children) (hn : TreeNode.IsNodeOf n c) :
      TreeNode.IsNodeOf n t

/-- The calls `menu.menuItem(name, config)` made one after another on the
underlying menu, stopping at the first that fails. -/
def Menu.registerEach : Menu → List (String × MenuItemConfig) → Except JSError Menu
  | m, [] => Except.ok m
  | m, (name, config) :: rest =>
    match m.menuItem name (some config) with
    | Except.error e => Except.error e
    | Except.ok (m1, _) => Menu.registerEach m1 rest

theorem getProp_setProp_same {α : Type} (o : List (String × α)) (key : String) (v : α) :
    getProp (setProp o key v) key = some v := by
  induction o with
  | nil => simp [setProp, getProp]
  | cons e rest ih =>
    obtain ⟨k, w⟩ := e
    by_cases h : k = key
    · simp [setProp, getProp, h]
    · simp [setProp, getProp, h, ih]

theorem getProp_setProp_other {α : Type} (o : List (String × α)) (key other : String) (v : α)
    (h : other ≠ key) : getProp (setProp o key v) other = getProp o other := by
  induction o with
  | nil =>
    have h1 : ¬ key = other := fun e => h e.symm
    simp [setProp, getProp, h1]
  | cons e rest ih =>
    obtain ⟨k, w⟩ := e
    by_cases hk : k = key
    · have h1 : ¬ k = other := fun e => h (e.symm.trans hk)
      have h2 : ¬ key = other := fun e => h e.symm
      simp [setProp, getProp, hk, h2]
    · by_cases ho : k = other
      · subst ho
        simp [setProp, getProp, h]
      · simp [setProp, getProp, hk, ho, ih]

theorem Value.truthy_bool (b : Bool) : (Value.bool b).truthy = b := rfl

theorem jsOr_truthy (a b : Value) : (jsOr a b).truthy = (a.truthy || b.truthy) := by
  unfold jsOr
  cases h : a.truthy <;> simp [h]

theorem defaultIsVisible_truthy (this : MenuItem) :
    (defaultIsVisible this).truthy =
      (this.hasVisibleChildren.truthy || (field this.definition "state").isDefined
        || (field this.definition "href").isDefined || (field this.definition "click").isDefined
        || (field this.definition "isDivider").truthy) := by
  simp only [defaultIsVisible, jsOr_truthy, Value.truthy_bool, Bool.or_assoc]

theorem field_withIsVisible_of_undefined (config : MenuItemConfig)
    (h : (field config "isVisible").isUndefined = true) :
    field (NavigationService.withIsVisible config) "isVisible" = Value.defaultIsVisible := by
  unfold NavigationService.withIsVisible
  rw [if_pos h]
  unfold field
  rw [getProp_setProp_same]
  rfl

theorem NavigationService.menuItem_some (s : NavigationService) (name : String)
    (config : MenuItemConfig) :
    s.menuItem name (some config) =
      match segments name with
      | none => Except.error JSError.malformedName
      | some _ =>
        Except.ok
          ({ s with
              _menu :=
                { _menuItems :=
                    setProp s._menu._menuItems name (NavigationService.withIsVisible config) } },
            Ret.this) := by
  unfold NavigationService.menuItem Menu.menuItem
  cases segments name <;> rfl

/-! ## Visibility default (lines 396-411) -/

/-- C1: a config registered through `NavigationService.menuItem` with `isVisible`
undefined is stored with the default function in `isVisible` and its other
fields as they were; that function, run on any item, reports visible exactly
when the item's `hasVisibleChildren()` is truthy, or its `state`, `href` or
`click` is defined, or its `isDivider` is truthy, all read from the item it
runs on. An item with none of these is not visible, and becomes visible when
only `hasVisibleChildren()` turns true. -/
theorem C1_default_isVisible_rule (config : MenuItemConfig)
    (hunset : (field config "isVisible").isUndefined = true) :
    (∀ (s s1 : NavigationService) (name : String) (r : Ret),
        s.menuItem name (some config) = Except.ok (s1, r) →
        ∃ registered, getProp s1._menu._menuItems name = some registered ∧
          field registered "isVisible" = Value.defaultIsVisible ∧
          ∀ k, k ≠ "isVisible" → getProp registered k = getProp config k) ∧
    (∀ (callbacks : Nat → MenuItem → Value) (item : MenuItem),
        ∃ v, callIsVisible callbacks
              (field (NavigationService.withIsVisible config) "isVisible") item = some v ∧
          (v.truthy = true ↔
            item.hasVisibleChildren.truthy = true ∨
            (field item.definition "state").isDefined = true ∨
            (field item.definition "href").isDefined = true ∨
            (field item.definition "click").isDefined = true ∨
            (field item.definition "isDivider").truthy = true)) ∧
    (∀ (callbacks : Nat → MenuItem → Value) (definition : MenuItemConfig),
        (field definition "state").isDefined = false →
        (field definition "href").isDefined = false →
        (field definition "click").isDefined = false →
        (field definition "isDivider").truthy = false →
        (callIsVisible callbacks (field (NavigationService.withIsVisible config) "isVisible")
            { definition := definition, hasVisibleChildren := Value.bool false }).map
          Value.truthy = some false ∧
        (callIsVisible callbacks (field (NavigationService.withIsVisible config) "isVisible")
            { definition := definition, hasVisibleChildren := Value.bool true }).map
          Value.truthy = some true) := by
  have hf := field_withIsVisible_of_undefined config hunset
  refine ⟨?_, ?_, ?_⟩
  · intro s s1 name r h
    rw [NavigationService.menuItem_some] at h
    cases hseg : segments name with
    | none => rw [hseg] at h; cases h
    | some segs =>
      rw [hseg] at h
      injection h with h
      injection h with h1 h2
      subst h1
      refine ⟨NavigationService.withIsVisible config, getProp_setProp_same _ _ _, hf, ?_⟩
      intro k hk
      unfold NavigationService.withIsVisible
      rw [if_pos hunset]
      exact getProp_setProp_other _ _ _ _ hk
  · intro callbacks item
    refine ⟨defaultIsVisible item, by rw [hf]; rfl, ?_⟩
    rw [defaultIsVisible_truthy]
    simp only [Bool.or_eq_true]
    tauto
  · intro callbacks definition h1 h2 h3 h4
    rw [hf]
    simp only [callIsVisible, Option.map_some', defaultIsVisible_truthy, h1, h2, h3, h4,
      Value.truthy_bool, Bool.or_false, Bool.true_or, and_self]

/-- Witness for C1: the config of a parent item that sets only `text`. -/
theorem C1_default_isVisible_rule_witness :
    (field [("text", Value.str "Parent")] "isVisible").isUndefined = true ∧
    (callIsVisible (fun _ _ => Value.undefined)
        (field (NavigationService.withIsVisible [("text", Value.str "Parent")]) "isVisible")
        { definition := [("text", Value.str "Parent")],
          hasVisibleChildren := Value.bool false }).map Value.truthy = some false ∧
    (callIsVisible (fun _ _ => Value.undefined)
        (field (NavigationService.withIsVisible [("text", Value.str "Parent")]) "isVisible")
        { definition := [("text", Value.str "Parent")],
          hasVisibleChildren := Value.bool true }).map Value.truthy = some true :=
  ⟨by decide,
    (C1_default_isVisible_rule [("text", Value.str "Parent")] (by decide)).2.2
      (fun _ _ => Value.undefined) [("text", Value.str "Parent")]
      (by decide) (by decide) (by decide) (by decide)⟩

/-- C2: `NavigationService.menuItem(name, config)` hands the underlying menu the
config after lines 400-408 and nothing else; when `isVisible` is defined that
is the config itself, unchanged in every field, and it is what the menu then
holds under the name; when `isVisible` is undefined every field other than
`isVisible` is as it was. -/
theorem C2_config_handed_to_menu (s : NavigationService) (name : String)
    (config : MenuItemConfig) :
    (s.menuItem name (some config) =
        match s._menu.menuItem name (some (NavigationService.withIsVisible config)) with
        | Except.error e => Except.error e
        | Except.ok (menu, _) => Except.ok ({ s with _menu := menu }, Ret.this)) ∧
    ((field config "isVisible").isDefined = true →
        NavigationService.withIsVisible config = config ∧
        s.menuItem name (some config) =
          (match s._menu.menuItem name (some config) with
          | Except.error e => Except.error e
          | Except.ok (menu, _) => Except.ok ({ s with _menu := menu }, Ret.this)) ∧
        ∀ (s1 : NavigationService) (r : Ret),
          s.menuItem name (some config) = Except.ok (s1, r) →
          getProp s1._menu._menuItems name = some config) ∧
    ((field config "isVisible").isUndefined = true →
        ∀ k, k ≠ "isVisible" →
          getProp (NavigationService.withIsVisible config) k = getProp config k) := by
  refine ⟨rfl, ?_, ?_⟩
  · intro hdef
    have hnot : (field config "isVisible").isUndefined = false := by
      simpa [Value.isDefined] using hdef
    have hsame : NavigationService.withIsVisible config = config := by
      unfold NavigationService.withIsVisible
      rw [hnot]
      rfl
    refine ⟨hsame, ?_, ?_⟩
    · simp only [NavigationService.menuItem, hsame]
    · intro s1 r h
      rw [NavigationService.menuItem_some, hsame] at h
      cases hseg : segments name with
      | none => rw [hseg] at h; cases h
      | some segs =>
        rw [hseg] at h
        injection h with h
        injection h with h1 h2
        subst h1
        exact getProp_setProp_same _ _ _
  · intro hunset k hk
    unfold NavigationService.withIsVisible
    rw [if_pos hunset]
    exact getProp_setProp_other _ _ _ _ hk

/-! ## Service fields and chained calls -/

theorem NavigationService.menuItem_fields (s s1 : NavigationService) (name : String)
    (config : Option MenuItemConfig) (r : Ret) (h : s.menuItem name config = Except.ok (s1, r)) :
    s1._iconBaseClass = s._iconBaseClass ∧
    s1.defaultIconClassPrefix = s.defaultIconClassPrefix ∧
    s1._defaultIconClassPrefix = s._defaultIconClassPrefix := by
  cases config with
  | none =>
    simp only [NavigationService.menuItem, Menu.menuItem] at h
    injection h with h
    injection h with h1 h2
    subst h1
    exact ⟨rfl, rfl, rfl⟩
  | some config =>
    rw [NavigationService.menuItem_some] at h
    cases hseg : segments name with
    | none => rw [hseg] at h; cases h
    | some segs =>
      rw [hseg] at h
      injection h with h
      injection h with h1 h2
      subst h1
      exact ⟨rfl, rfl, rfl⟩

theorem NavigationService.forEachMenuItem_fields (entries : List (String × Option MenuItemConfig)) :
    ∀ (s s1 : NavigationService), NavigationService.forEachMenuItem entries s = Except.ok s1 →
      s1._iconBaseClass = s._iconBaseClass ∧
      s1.defaultIconClassPrefix = s.defaultIconClassPrefix ∧
      s1._defaultIconClassPrefix = s._defaultIconClassPrefix := by
  induction entries with
  | nil =>
    intro s s1 h
    simp only [NavigationService.forEachMenuItem] at h
    injection h with h
    subst h
    exact ⟨rfl, rfl, rfl⟩
  | cons e rest ih =>
    intro s s1 h
    obtain ⟨name, config⟩ := e
    simp only [NavigationService.forEachMenuItem] at h
    cases hm : s.menuItem name config with
    | error err => rw [hm] at h; cases h
    | ok out =>
      obtain ⟨s2, r⟩ := out
      rw [hm] at h
      have h2 := NavigationService.menuItem_fields s s2 name config r hm
      have h3 := ih s2 s1 h
      exact ⟨h3.1.trans h2.1, h3.2.1.trans h2.2.1, h3.2.2.trans h2.2.2⟩

/-- C4: on the service, `menuItem(name)` returns what the underlying menu holds
under the name (or not-found) and changes nothing. On the provider the same
call returns the provider, never a definition, and stores `undefined` under the
name: after registering a definition for "foo.home", `menuItem("foo.home")`
leaves "foo.home" mapped to `undefined`. -/
theorem C4_provider_menuItem_without_config_overwrites :
    (∀ (s : NavigationService) (name : String),
        s.menuItem name none = Except.ok (s, Ret.item (getProp s._menu._menuItems name))) ∧
    (∀ (p : NavigationProvider) (name : String),
        (p.menuItem name none).2 = Ret.this ∧
        getProp (p.menuItem name none).1._menuItems name = some none) ∧
    getProp (NavigationProvider.new.menuItem "foo.home" (some [("text", Value.str "Home")])).1._menuItems
      "foo.home" = some (some [("text", Value.str "Home")]) ∧
    (NavigationProvider.new.menuItem "foo.home" (some [("text", Value.str "Home")])).1.menuItem
      "foo.home" none =
      ({ NavigationProvider.new with _menuItems := [("foo.home", none)] }, Ret.this) := by
  refine ⟨?_, ?_, by decide, by decide⟩
  · intro s name
    rfl
  · intro p name
    exact ⟨rfl, getProp_setProp_same _ _ _⟩

/-- C6: in the service that `$get` builds, the provider's prefix is stored in
the own property `defaultIconClassPrefix` (line 372), `_defaultIconClassPrefix`
stays undefined, and so the call `defaultIconClassPrefix()` returns no value at
all, while `iconBaseClass()` does return the provider's base class. -/
theorem C6_service_defaultIconClassPrefix_call (p : NavigationProvider) (menuJsMenu : Menu)
    (s : NavigationService) (h : p.get menuJsMenu = Except.ok s) :
    s.defaultIconClassPrefix = p._defaultIconClassPrefix ∧
    s.prototypeDefaultIconClassPrefix = Value.undefined ∧
    (∀ v, s.callDefaultIconClassPrefix ≠ CallResult.returns v) ∧
    s.iconBaseClass = p._iconBaseClass := by
  have hf := NavigationService.forEachMenuItem_fields _ _ _ h
  refine ⟨hf.2.1, hf.2.2, ?_, hf.1⟩
  intro v
  unfold NavigationService.callDefaultIconClassPrefix
  cases s.defaultIconClassPrefix <;> simp

/-- Witness for C6: the service built from a fresh provider and an empty menu;
the call `defaultIconClassPrefix()` fails with a type error. -/
theorem C6_service_defaultIconClassPrefix_call_witness :
    NavigationProvider.new.get { _menuItems := [] } =
      Except.ok
        { _menu := { _menuItems := [] }
          _iconBaseClass := Value.str "glyphicon"
          defaultIconClassPrefix := Value.str "glyphicon"
          _defaultIconClassPrefix := Value.undefined } ∧
    NavigationService.callDefaultIconClassPrefix
        { _menu := { _menuItems := [] }
          _iconBaseClass := Value.str "glyphicon"
          defaultIconClassPrefix := Value.str "glyphicon"
          _defaultIconClassPrefix := Value.undefined } = CallResult.throwsTypeError ∧
    NavigationService.prototypeDefaultIconClassPrefix
        { _menu := { _menuItems := [] }
          _iconBaseClass := Value.str "glyphicon"
          defaultIconClassPrefix := Value.str "glyphicon"
          _defaultIconClassPrefix := Value.undefined } = Value.undefined :=
  ⟨rfl, rfl,
    (C6_service_defaultIconClassPrefix_call NavigationProvider.new { _menuItems := [] } _ rfl).2.1⟩

/-- C7: both provider settings start at 'glyphicon'. For a defined value `v`,
`iconBaseClass(v)` returns the provider, a following `iconBaseClass()` returns
`v`, and `defaultIconClassPrefix()` and the menu items are as before; the same
holds with the two settings exchanged. -/
theorem C7_icon_settings_independent (p : NavigationProvider) (v : Value)
    (hv : v.isDefined = true) :
    (NavigationProvider.new.iconBaseClass Value.undefined).2 = Ret.value (Value.str "glyphicon") ∧
    (NavigationProvider.new.defaultIconClassPrefix Value.undefined).2 =
      Ret.value (Value.str "glyphicon") ∧
    (p.iconBaseClass v).2 = Ret.this ∧
    (p.iconBaseClass v).1.iconBaseClass Value.undefined = ((p.iconBaseClass v).1, Ret.value v) ∧
    ((p.iconBaseClass v).1.defaultIconClassPrefix Value.undefined).2 =
      (p.defaultIconClassPrefix Value.undefined).2 ∧
    (p.iconBaseClass v).1._menuItems = p._menuItems ∧
    (p.defaultIconClassPrefix v).2 = Ret.this ∧
    (p.defaultIconClassPrefix v).1.defaultIconClassPrefix Value.undefined =
      ((p.defaultIconClassPrefix v).1, Ret.value v) ∧
    ((p.defaultIconClassPrefix v).1.iconBaseClass Value.undefined).2 =
      (p.iconBaseClass Value.undefined).2 ∧
    (p.defaultIconClassPrefix v).1._menuItems = p._menuItems := by
  have hu : v.isUndefined = false := by simpa [Value.isDefined] using hv
  have hun : Value.undefined.isUndefined = true := rfl
  simp [NavigationProvider.iconBaseClass, NavigationProvider.defaultIconClassPrefix, hu, hun,
    NavigationProvider.new]

/-- Witness for C7: setting 'fa' on a fresh provider. -/
theorem C7_icon_settings_independent_witness :
    (Value.str "fa").isDefined = true ∧
    (NavigationProvider.new.iconBaseClass (Value.str "fa")).1.iconBaseClass Value.undefined =
      ((NavigationProvider.new.iconBaseClass (Value.str "fa")).1, Ret.value (Value.str "fa")) ∧
    ((NavigationProvider.new.iconBaseClass (Value.str "fa")).1.defaultIconClassPrefix
        Value.undefined).2 = Ret.value (Value.str "glyphicon") :=
  ⟨by decide,
    (C7_icon_settings_independent NavigationProvider.new (Value.str "fa") (by decide)).2.2.2.1,
    (C7_icon_settings_independent NavigationProvider.new (Value.str "fa") (by decide)).2.2.2.2.1⟩

theorem TreeNode.isNodeOf_mk (n : TreeNode) (d : Option MenuItemConfig) (cs : List TreeNode)
    (v : Bool) (h : TreeNode.IsNodeOf n (TreeNode.mk d cs v)) :
    n = TreeNode.mk d cs v ∨ ∃ c, c ∈ cs ∧ TreeNode.IsNodeOf n c := by
  generalize ht : TreeNode.mk d cs v = t at h
  cases h with
  | here => exact Or.inl rfl
  | under c _ hc hn =>
    subst ht
    exact Or.inr ⟨c, hc, hn⟩

theorem orderSiblings_sorted (nodes : List TreeNode) :
    (orderSiblings nodes).Pairwise (fun a b => a.weight ≤ b.weight) := by
  haveI : IsTotal TreeNode (fun a b => a.weight ≤ b.weight) := ⟨fun a b => le_total _ _⟩
  haveI : IsTrans TreeNode (fun a b => a.weight ≤ b.weight) := ⟨fun a b c => le_trans⟩
  exact List.sorted_insertionSort (fun a b : TreeNode => a.weight ≤ b.weight) nodes

mutual
theorem Trie.render_node_ordered (callbacks : Nat → MenuItem → Value) :
    ∀ (t : Trie) (node : TreeNode), TreeNode.IsNodeOf node (Trie.render callbacks t) →
      node.children.Pairwise (fun a b => a.weight ≤ b.weight)
  | Trie.node d cs, node, h => by
    rw [Trie.render] at h
    rcases TreeNode.isNodeOf_mk _ _ _ _ h with h | ⟨c, hc, hn⟩
    · subst h
      exact (orderSiblings_sorted _).filter _
    · have hc1 : c ∈ TrieList.render callbacks cs :=
        (List.mem_insertionSort _).1 (List.mem_filter.1 hc).1
      exact TrieList.render_children_ordered callbacks cs c hc1 node hn
theorem TrieList.render_children_ordered (callbacks : Nat → MenuItem → Value) :
    ∀ (cs : TrieList) (c : TreeNode), c ∈ TrieList.render callbacks cs →
      ∀ node : TreeNode, TreeNode.IsNodeOf node c →
        node.children.Pairwise (fun a b => a.weight ≤ b.weight)
  | TrieList.nil, c, hc, node, hn => by
    rw [TrieList.render] at hc
    cases hc
  | TrieList.cons seg t cs, c, hc, node, hn => by
    rw [TrieList.render] at hc
    rcases List.mem_cons.1 hc with h | h
    · subst h
      exact Trie.render_node_ordered callbacks t node hn
    · exact TrieList.render_children_ordered callbacks cs c h node hn
end

